import Mathlib

/-!
Verification of the HarmLens decision-and-audit engine against its
natural-language specification.

The Python sources are shallowly embedded: dict-shaped signal inputs become a
`Signals` structure (field defaults mirror the `signals.get(key, default)`
reads), Python floats become exact rationals (`ℚ`), Python's banker's rounding
`round` becomes `roundHalfEven`, SQLite tables become lists of row structures
with explicit state passing, and the JSON/SHA-256 audit chain is embedded with
a concrete JSON serializer (`sort_keys=True` semantics) and a full SHA-256
implementation over byte lists.

Module map:
* `HarmLens.Scoring`          — src/core/scoring.py (the module imported by
                                 src/api_server.py)
* `HarmLens.ImprovedScoring`  — src/core/signals/improved_scoring.py
* `HarmLens.Actions`          — src/core/actions.py
* `HarmLens.Db`               — src/core/database.py
* `HarmLens.Chain`            — src/core/blockchain.py
-/

namespace HarmLens

/-- The signal dictionary consumed by both scoring modules.  Field defaults
are exactly the defaults of the `signals.get(...)` calls in the Python
sources; a missing key is the default value. -/
structure Signals where
  emotion_score : ℚ := 0
  cta_score : ℚ := 0
  tox_score : ℚ := 0
  context_score : ℚ := 0
  child_score : ℚ := 0
  child_flag : Bool := false
  toxicity_severity : String := "low"
  requires_immediate_action : Bool := false
  toxicity_categories : List String := []
  child_severity : String := "none"
  child_exploitation_matches : ℕ := 0
  child_combination_matches : ℕ := 0
  deriving Repr, DecidableEq

/-- Python 3 `round` on an exact value: round half to even. -/
def roundHalfEven (q : ℚ) : ℤ :=
  if q = (⌊q⌋ : ℚ) + 1/2 then (if ⌊q⌋ % 2 = 0 then ⌊q⌋ else ⌊q⌋ + 1)
  else ⌊q + 1/2⌋

theorem roundHalfEven_intCast (n : ℤ) : roundHalfEven (n : ℚ) = n := by
  unfold roundHalfEven
  rw [Int.floor_intCast]
  rw [if_neg (by norm_num)]
  rw [add_comm, Int.floor_add_int]
  norm_num

theorem floor_le_roundHalfEven (q : ℚ) : ⌊q⌋ ≤ roundHalfEven q := by
  unfold roundHalfEven
  split
  · split <;> omega
  · exact Int.floor_le_floor (by linarith)

theorem roundHalfEven_le_floor_add_half (q : ℚ) : roundHalfEven q ≤ ⌊q + 1/2⌋ := by
  unfold roundHalfEven
  split
  · next h =>
    have h2 : q + 1/2 = (⌊q⌋ : ℚ) + 1 := by linarith
    rw [h2, Int.floor_add_one, Int.floor_intCast]
    split <;> omega
  · exact le_rfl

theorem roundHalfEven_mono {x y : ℚ} (h : x ≤ y) :
    roundHalfEven x ≤ roundHalfEven y := by
  rcases eq_or_lt_of_le h with rfl | hlt
  · exact le_rfl
  · refine le_trans (roundHalfEven_le_floor_add_half x) ?_
    by_cases hy : y = (⌊y⌋ : ℚ) + 1/2
    · refine le_trans ?_ (floor_le_roundHalfEven y)
      have hlt2 : x + 1/2 < ((⌊y⌋ + 1 : ℤ) : ℚ) := by
        rw [hy] at hlt; push_cast; linarith
      have := Int.floor_lt.2 hlt2
      omega
    · have hrw : roundHalfEven y = ⌊y + 1/2⌋ := by
        unfold roundHalfEven; rw [if_neg hy]
      rw [hrw]
      exact Int.floor_le_floor (by linarith)

/-- The `severe_categories` list shared verbatim by both scoring modules. -/
def severe_categories : List String :=
  ["Threats/Violence", "Hate Speech", "Sexual Harassment",
   "Extremist Content", "Slurs/Derogatory Language"]

/-- `sum(1 for cat in toxicity_categories if cat in severe_categories)`. -/
def severeCount (cats : List String) : ℕ :=
  cats.countP (fun c => severe_categories.contains c)

/-- The result dictionary returned by both scoring modules. -/
structure HarmResult where
  risk_score : ℤ
  risk_label : String
  breakdown : List (String × ℚ)
  child_escalation : Bool
  immediate_action_required : Bool
  toxicity_severity : String
  deriving Repr, DecidableEq

/-- Shared label thresholds: Low ≤ 49, Medium 50–74, High ≥ 75
(identical text in both scoring modules). -/
def riskLabel (n : ℤ) : String :=
  if n ≤ 49 then "Low" else if n ≤ 74 then "Medium" else "High"

/-- One floor-style override: `if cond: risk_score = max(risk_score, fl)`. -/
def floorIf (c : Prop) [Decidable c] (fl r : ℚ) : ℚ :=
  if c then max r fl else r

/-- One multiplier-style override:
`if cond: risk_score = min(risk_score * k, 100)`. -/
def multIf (c : Prop) [Decidable c] (k r : ℚ) : ℚ :=
  if c then min (r * k) 100 else r

/-- The toxicity-severity floor pair shared by both modules:
critical ⟶ floor 90, high ⟶ floor 75. -/
def sevFloor (sev : String) (r : ℚ) : ℚ :=
  if sev = "critical" then max r 90 else if sev = "high" then max r 75 else r

/-- The severe-category-count floor pair shared by both modules:
`≥ 2` categories ⟶ floor 85, `≥ 1` ⟶ floor 70. -/
def catFloor (n : ℕ) (r : ℚ) : ℚ :=
  if 2 ≤ n then max r 85 else if 1 ≤ n then max r 70 else r

namespace Scoring

/-- src/core/scoring.py base score: 40% toxicity, 25% emotion, 15% CTA,
10% context, 10% child safety (the module's own comment: "IMPROVED WEIGHTS:
Toxicity is now more important"). -/
def base_score (s : Signals) : ℚ :=
  0.40 * s.tox_score +
  0.25 * s.emotion_score +
  0.15 * s.cta_score +
  0.10 * s.context_score +
  0.10 * s.child_score

/-- The risk score after the four floor-style overrides of
src/core/scoring.py (Overrides 1–4), on the 0–100 scale. -/
def riskAfterFloors (s : Signals) : ℚ :=
  floorIf (s.child_flag ∧ 0.5 < s.child_score) 85
    (catFloor (severeCount s.toxicity_categories)
      (sevFloor s.toxicity_severity
        (floorIf s.requires_immediate_action 85 (base_score s * 100))))

/-- The risk score after the two multiplier overrides of src/core/scoring.py
(Overrides 5–6). -/
def riskAfterMults (s : Signals) : ℚ :=
  multIf (0.7 < s.tox_score ∧ 0.6 < s.cta_score) 1.25
    (multIf (0.7 < s.tox_score ∧ 0.6 < s.emotion_score) 1.2
      (riskAfterFloors s))

/-- `min(int(round(risk_score)), 100)` in src/core/scoring.py. -/
def risk_score (s : Signals) : ℤ :=
  min (roundHalfEven (riskAfterMults s)) 100

/-- src/core/scoring.py `calculate_improved_harm_score`. -/
def calculate_improved_harm_score (s : Signals) : HarmResult :=
  { risk_score := risk_score s
    risk_label := riskLabel (risk_score s)
    breakdown := [("Toxicity", s.tox_score), ("Emotion", s.emotion_score),
                  ("Call-to-Action", s.cta_score),
                  ("Context Sensitivity", s.context_score),
                  ("Child Safety", s.child_score)]
    child_escalation := s.child_flag && decide (0.5 < s.child_score)
    immediate_action_required := s.requires_immediate_action
    toxicity_severity := s.toxicity_severity }

/-- src/core/scoring.py `calculate_harm_score` (the backward-compatibility
wrapper that src/api_server.py imports). -/
def calculate_harm_score (s : Signals) : HarmResult :=
  calculate_improved_harm_score s

end Scoring

namespace ImprovedScoring

/-- src/core/signals/improved_scoring.py base score: 35% child safety,
30% toxicity, 20% emotion, 10% CTA, 5% context. -/
def base_score (s : Signals) : ℚ :=
  0.35 * s.child_score +
  0.30 * s.tox_score +
  0.20 * s.emotion_score +
  0.10 * s.cta_score +
  0.05 * s.context_score

/-- The child-safety override chain (Overrides 1–4, an `elif` chain in
src/core/signals/improved_scoring.py).  Returns the risk score so far and
the possibly-updated `requires_immediate_action` local. -/
def childStage (s : Signals) : ℚ × Bool :=
  let r0 := base_score s * 100
  if s.child_severity = "critical" ∨ 1 ≤ s.child_combination_matches then
    (max r0 95, true)
  else if s.child_severity = "high" ∨ 2 ≤ s.child_exploitation_matches then
    (max r0 85, true)
  else if s.child_flag ∧ 0.6 < s.child_score then
    (max r0 80, s.requires_immediate_action)
  else if s.child_flag ∧ 1 ≤ s.child_exploitation_matches then
    (max r0 85, true)
  else
    (r0, s.requires_immediate_action)

/-- Toxicity overrides 5–7 of src/core/signals/improved_scoring.py, applied
to the output of `childStage` (Override 5 reads the mutated
`requires_immediate_action`). -/
def toxStage (s : Signals) : ℚ × Bool :=
  let p := childStage s
  (catFloor (severeCount s.toxicity_categories)
    (sevFloor s.toxicity_severity
      (floorIf (p.2 ∧ ¬ s.child_flag) 85 p.1)), p.2)

/-- Combination multipliers 8–10 of src/core/signals/improved_scoring.py. -/
def riskAfterMults (s : Signals) : ℚ :=
  multIf (s.child_flag ∧ (0.6 < s.tox_score ∨ 0.6 < s.emotion_score)) 1.3
    (multIf (0.7 < s.tox_score ∧ 0.6 < s.cta_score) 1.25
      (multIf (0.7 < s.tox_score ∧ 0.6 < s.emotion_score) 1.2
        ((toxStage s).1)))

/-- `min(int(round(risk_score)), 100)` in improved_scoring.py. -/
def risk_score (s : Signals) : ℤ :=
  min (roundHalfEven (riskAfterMults s)) 100

/-- src/core/signals/improved_scoring.py `calculate_improved_harm_score`. -/
def calculate_improved_harm_score (s : Signals) : HarmResult :=
  { risk_score := risk_score s
    risk_label := riskLabel (risk_score s)
    breakdown := [("Child Safety", s.child_score), ("Toxicity", s.tox_score),
                  ("Emotion", s.emotion_score), ("Call-to-Action", s.cta_score),
                  ("Context Sensitivity", s.context_score)]
    child_escalation := s.child_flag && decide (0.5 < s.child_score)
    immediate_action_required :=
      (toxStage s).2 || (s.child_severity = "critical" ∨ s.child_severity = "high")
    toxicity_severity := s.toxicity_severity }

end ImprovedScoring

/-- All five signal scores lie in the detector contract range [0,1]. -/
def ScoresIn01 (s : Signals) : Prop :=
  0 ≤ s.emotion_score ∧ s.emotion_score ≤ 1 ∧
  0 ≤ s.cta_score ∧ s.cta_score ≤ 1 ∧
  0 ≤ s.tox_score ∧ s.tox_score ≤ 1 ∧
  0 ≤ s.context_score ∧ s.context_score ≤ 1 ∧
  0 ≤ s.child_score ∧ s.child_score ≤ 1

theorem floorIf_mono {c c' : Prop} [Decidable c] [Decidable c'] {fl r r' : ℚ}
    (hr : r ≤ r') (hc : c → c') : floorIf c fl r ≤ floorIf c' fl r' := by
  unfold floorIf
  by_cases h : c
  · rw [if_pos h, if_pos (hc h)]
    exact max_le_max hr le_rfl
  · rw [if_neg h]
    by_cases h2 : c'
    · rw [if_pos h2]
      exact le_trans hr (le_max_left r' fl)
    · rw [if_neg h2]
      exact hr

theorem floorIf_le {c : Prop} [Decidable c] {fl r : ℚ}
    (h100 : r ≤ 100) (hfl : fl ≤ 100) : floorIf c fl r ≤ 100 := by
  unfold floorIf
  split
  · exact max_le h100 hfl
  · exact h100

theorem floorIf_nonneg {c : Prop} [Decidable c] {fl r : ℚ}
    (h0 : 0 ≤ r) : 0 ≤ floorIf c fl r := by
  unfold floorIf
  split
  · exact le_trans h0 (le_max_left r fl)
  · exact h0

theorem multIf_mono {c c' : Prop} [Decidable c] [Decidable c'] {k r r' : ℚ}
    (hk : 1 ≤ k) (hr : r ≤ r') (h0 : 0 ≤ r) (h100 : r ≤ 100)
    (hc : c → c') : multIf c k r ≤ multIf c' k r' := by
  unfold multIf
  by_cases h : c
  · rw [if_pos h, if_pos (hc h)]
    exact min_le_min
      (mul_le_mul_of_nonneg_right hr (le_trans zero_le_one hk)) le_rfl
  · rw [if_neg h]
    by_cases h2 : c'
    · rw [if_pos h2]
      exact le_min
        (le_trans hr (le_mul_of_one_le_right (le_trans h0 hr) hk)) h100
    · rw [if_neg h2]
      exact hr

theorem multIf_le {c : Prop} [Decidable c] {k r : ℚ}
    (h100 : r ≤ 100) : multIf c k r ≤ 100 := by
  unfold multIf
  split
  · exact min_le_right _ _
  · exact h100

theorem multIf_nonneg {c : Prop} [Decidable c] {k r : ℚ}
    (h0 : 0 ≤ r) (hk : 0 ≤ k) : 0 ≤ multIf c k r := by
  unfold multIf
  split
  · exact le_min (mul_nonneg h0 hk) (by norm_num)
  · exact h0

theorem sevFloor_mono {sev : String} {r r' : ℚ}
    (hr : r ≤ r') : sevFloor sev r ≤ sevFloor sev r' := by
  unfold sevFloor
  by_cases h1 : sev = "critical"
  · rw [if_pos h1, if_pos h1]
    exact max_le_max hr le_rfl
  · rw [if_neg h1, if_neg h1]
    by_cases h2 : sev = "high"
    · rw [if_pos h2, if_pos h2]
      exact max_le_max hr le_rfl
    · rw [if_neg h2, if_neg h2]
      exact hr

theorem sevFloor_le {sev : String} {r : ℚ}
    (h100 : r ≤ 100) : sevFloor sev r ≤ 100 := by
  unfold sevFloor
  by_cases h1 : sev = "critical"
  · rw [if_pos h1]
    exact max_le h100 (by norm_num)
  · rw [if_neg h1]
    by_cases h2 : sev = "high"
    · rw [if_pos h2]
      exact max_le h100 (by norm_num)
    · rw [if_neg h2]
      exact h100

theorem sevFloor_nonneg {sev : String} {r : ℚ}
    (h0 : 0 ≤ r) : 0 ≤ sevFloor sev r := by
  unfold sevFloor
  by_cases h1 : sev = "critical"
  · rw [if_pos h1]
    exact le_trans h0 (le_max_left _ _)
  · rw [if_neg h1]
    by_cases h2 : sev = "high"
    · rw [if_pos h2]
      exact le_trans h0 (le_max_left _ _)
    · rw [if_neg h2]
      exact h0

theorem catFloor_mono {n : ℕ} {r r' : ℚ}
    (hr : r ≤ r') : catFloor n r ≤ catFloor n r' := by
  unfold catFloor
  by_cases h1 : 2 ≤ n
  · rw [if_pos h1, if_pos h1]
    exact max_le_max hr le_rfl
  · rw [if_neg h1, if_neg h1]
    by_cases h2 : 1 ≤ n
    · rw [if_pos h2, if_pos h2]
      exact max_le_max hr le_rfl
    · rw [if_neg h2, if_neg h2]
      exact hr

theorem catFloor_le {n : ℕ} {r : ℚ}
    (h100 : r ≤ 100) : catFloor n r ≤ 100 := by
  unfold catFloor
  by_cases h1 : 2 ≤ n
  · rw [if_pos h1]
    exact max_le h100 (by norm_num)
  · rw [if_neg h1]
    by_cases h2 : 1 ≤ n
    · rw [if_pos h2]
      exact max_le h100 (by norm_num)
    · rw [if_neg h2]
      exact h100

theorem catFloor_nonneg {n : ℕ} {r : ℚ}
    (h0 : 0 ≤ r) : 0 ≤ catFloor n r := by
  unfold catFloor
  by_cases h1 : 2 ≤ n
  · rw [if_pos h1]
    exact le_trans h0 (le_max_left _ _)
  · rw [if_neg h1]
    by_cases h2 : 1 ≤ n
    · rw [if_pos h2]
      exact le_trans h0 (le_max_left _ _)
    · rw [if_neg h2]
      exact h0

theorem Scoring.base_score_nonneg {s : Signals} (h : ScoresIn01 s) :
    0 ≤ Scoring.base_score s := by
  obtain ⟨he0, _, hc0, _, ht0, _, hx0, _, hch0, _⟩ := h
  unfold Scoring.base_score
  linarith

theorem Scoring.base_score_le_one {s : Signals} (h : ScoresIn01 s) :
    Scoring.base_score s ≤ 1 := by
  obtain ⟨_, he1, _, hc1, _, ht1, _, hx1, _, hch1⟩ := h
  unfold Scoring.base_score
  linarith

theorem Scoring.base_score_mono {s t : Signals}
    (he : s.emotion_score ≤ t.emotion_score) (hc : s.cta_score ≤ t.cta_score)
    (hx : s.tox_score ≤ t.tox_score) (hn : s.context_score ≤ t.context_score)
    (hch : s.child_score ≤ t.child_score) :
    Scoring.base_score s ≤ Scoring.base_score t := by
  unfold Scoring.base_score
  linarith

theorem Scoring.riskAfterFloors_nonneg {s : Signals} (h : ScoresIn01 s) :
    0 ≤ Scoring.riskAfterFloors s := by
  unfold Scoring.riskAfterFloors
  exact floorIf_nonneg (catFloor_nonneg (sevFloor_nonneg (floorIf_nonneg
    (by linarith [Scoring.base_score_nonneg h]))))

theorem Scoring.riskAfterFloors_le {s : Signals} (h : ScoresIn01 s) :
    Scoring.riskAfterFloors s ≤ 100 := by
  unfold Scoring.riskAfterFloors
  exact floorIf_le (catFloor_le (sevFloor_le (floorIf_le
    (by linarith [Scoring.base_score_le_one h]) (by norm_num)))) (by norm_num)

theorem Scoring.riskAfterFloors_mono {s t : Signals}
    (hflag : s.child_flag = t.child_flag)
    (hsev : s.toxicity_severity = t.toxicity_severity)
    (hria : s.requires_immediate_action = t.requires_immediate_action)
    (hcat : s.toxicity_categories = t.toxicity_categories)
    (he : s.emotion_score ≤ t.emotion_score) (hc : s.cta_score ≤ t.cta_score)
    (hx : s.tox_score ≤ t.tox_score) (hn : s.context_score ≤ t.context_score)
    (hch : s.child_score ≤ t.child_score) :
    Scoring.riskAfterFloors s ≤ Scoring.riskAfterFloors t := by
  unfold Scoring.riskAfterFloors
  rw [hflag, hsev, hria, hcat]
  refine floorIf_mono (catFloor_mono (sevFloor_mono (floorIf_mono ?_ id))) ?_
  · have := Scoring.base_score_mono he hc hx hn hch
    linarith
  · rintro ⟨hf, hlt⟩
    exact ⟨hf, lt_of_lt_of_le hlt hch⟩

theorem Scoring.riskAfterMults_mono {s t : Signals}
    (hflag : s.child_flag = t.child_flag)
    (hsev : s.toxicity_severity = t.toxicity_severity)
    (hria : s.requires_immediate_action = t.requires_immediate_action)
    (hcat : s.toxicity_categories = t.toxicity_categories)
    (hbs : ScoresIn01 s)
    (he : s.emotion_score ≤ t.emotion_score) (hc : s.cta_score ≤ t.cta_score)
    (hx : s.tox_score ≤ t.tox_score) (hn : s.context_score ≤ t.context_score)
    (hch : s.child_score ≤ t.child_score) :
    Scoring.riskAfterMults s ≤ Scoring.riskAfterMults t := by
  unfold Scoring.riskAfterMults
  have h1 : Scoring.riskAfterFloors s ≤ Scoring.riskAfterFloors t :=
    Scoring.riskAfterFloors_mono hflag hsev hria hcat he hc hx hn hch
  have h0 : 0 ≤ Scoring.riskAfterFloors s := Scoring.riskAfterFloors_nonneg hbs
  have h100 : Scoring.riskAfterFloors s ≤ 100 := Scoring.riskAfterFloors_le hbs
  refine multIf_mono (by norm_num) ?_ ?_ ?_ ?_
  · exact multIf_mono (by norm_num) h1 h0 h100
      (fun hcc => ⟨lt_of_lt_of_le hcc.1 hx, lt_of_lt_of_le hcc.2 he⟩)
  · exact multIf_nonneg h0 (by norm_num)
  · exact multIf_le h100
  · exact fun hcc => ⟨lt_of_lt_of_le hcc.1 hx, lt_of_lt_of_le hcc.2 hc⟩

/-- A weighted sum over (weight, score) pairs — the spec's
`base = Σ weight_i · score_i`. -/
def weightedSum (ws : List (ℚ × ℚ)) : ℚ :=
  (ws.map fun p => p.1 * p.2).sum

/-- Modelled from the spec (claim C4): the claimed base score
0.35·child-safety + 0.30·toxicity + 0.20·emotion + 0.10·call-to-action +
0.05·context, scaled to the 0–100 range. -/
def claimedBaseScore (s : Signals) : ℚ :=
  weightedSum
    [(0.35, s.child_score), (0.30, s.tox_score), (0.20, s.emotion_score),
     (0.10, s.cta_score), (0.05, s.context_score)] * 100

namespace Actions

/-- The fields of the `scoring_result` dict that
src/core/actions.py `recommend_action` reads. -/
structure ScoringResult where
  risk_score : ℤ
  risk_label : String
  child_escalation : Bool
  deriving Repr, DecidableEq

/-- The action dict returned by src/core/actions.py `recommend_action`. -/
structure ActionDecision where
  action : String
  queue : String
  priority : String
  rationale : String
  recommended_steps : List String
  deriving Repr, DecidableEq

/-- src/core/actions.py `recommend_action` (its `signals` parameter is never
read in the function body). -/
def recommend_action (scoring_result : ScoringResult) (_signals : Signals) :
    ActionDecision :=
  if scoring_result.child_escalation then
    { action := "ESCALATE IMMEDIATELY"
      queue := "Child Safety"
      priority := "CRITICAL"
      rationale :=
        "Child safety concern requires immediate human review by specialized team."
      recommended_steps :=
        ["Route to Child Safety specialists", "Preserve all evidence",
         "Immediate review required (SLA: <15 min)",
         "Consider account investigation"] }
  else if scoring_result.risk_score ≤ 39 then
    { action := "Monitor"
      queue := "Automated Monitoring"
      priority := "LOW"
      rationale := "Low harm risk. Continue automated monitoring for patterns."
      recommended_steps :=
        ["Log for pattern analysis", "No immediate action required",
         "Track engagement metrics", "Re-evaluate if viral spread detected"] }
  else if scoring_result.risk_score ≤ 69 then
    { action := "Add Warning / Reduce Reach"
      queue := "Automated + Sampling Review"
      priority := "MEDIUM"
      rationale :=
        "Moderate harm risk. Apply soft interventions to reduce potential spread."
      recommended_steps :=
        ["Append context/fact-check label if available",
         "Reduce algorithmic amplification", "Flag for random sampling review",
         "Monitor user reports"] }
  else
    { action := "Human Review Required"
      queue := "Priority Review Queue"
      priority := "HIGH"
      rationale := "High harm risk. Requires human judgment before further action."
      recommended_steps :=
        ["Route to human moderators immediately",
         "Temporarily reduce reach pending review", "Review account history",
         "Prepare for potential removal/suspension"] }

/-- The static child-safety branch of the rule table. -/
def escalateBranch : ActionDecision :=
  { action := "ESCALATE IMMEDIATELY"
    queue := "Child Safety"
    priority := "CRITICAL"
    rationale :=
      "Child safety concern requires immediate human review by specialized team."
    recommended_steps :=
      ["Route to Child Safety specialists", "Preserve all evidence",
       "Immediate review required (SLA: <15 min)",
       "Consider account investigation"] }

/-- The static low-risk branch of the rule table. -/
def monitorBranch : ActionDecision :=
  { action := "Monitor"
    queue := "Automated Monitoring"
    priority := "LOW"
    rationale := "Low harm risk. Continue automated monitoring for patterns."
    recommended_steps :=
      ["Log for pattern analysis", "No immediate action required",
       "Track engagement metrics", "Re-evaluate if viral spread detected"] }

/-- The static medium-risk branch of the rule table. -/
def warnBranch : ActionDecision :=
  { action := "Add Warning / Reduce Reach"
    queue := "Automated + Sampling Review"
    priority := "MEDIUM"
    rationale :=
      "Moderate harm risk. Apply soft interventions to reduce potential spread."
    recommended_steps :=
      ["Append context/fact-check label if available",
       "Reduce algorithmic amplification", "Flag for random sampling review",
       "Monitor user reports"] }

/-- The static high-risk branch of the rule table. -/
def reviewBranch : ActionDecision :=
  { action := "Human Review Required"
    queue := "Priority Review Queue"
    priority := "HIGH"
    rationale := "High harm risk. Requires human judgment before further action."
    recommended_steps :=
      ["Route to human moderators immediately",
       "Temporarily reduce reach pending review", "Review account history",
       "Prepare for potential removal/suspension"] }

end Actions

/-! ## Concrete inputs used by counterexamples and witnesses -/

/-- child_flag set, one exploitation-pattern match, child score 0.55;
all other signals at their defaults. -/
def sChild055 : Signals :=
  { child_flag := true, child_exploitation_matches := 1, child_score := 0.55 }

/-- Identical to `sChild055` except the child score is raised to 0.65. -/
def sChild065 : Signals :=
  { child_flag := true, child_exploitation_matches := 1, child_score := 0.65 }

/-- A malformed SignalSet: toxicity score 2, outside [0,1]. -/
def sMal : Signals := { tox_score := 2 }

/-- A SignalSet with only the child score set (to 1). -/
def sChildOnly : Signals := { child_score := 1 }

/-- Monotonicity witness pair: toxicity 0.5 vs 0.8, everything else default. -/
def sTox05 : Signals := { tox_score := 0.5 }

/-- See `sTox05`. -/
def sTox08 : Signals := { tox_score := 0.8 }

/-- C3 counterexample input: risk score 45, no child escalation. -/
def r45 : Actions.ScoringResult :=
  { risk_score := 45, risk_label := "Low", child_escalation := false }

/-! ## Claim C3 -/

/-- C3 counterexample: for a RiskAssessment with risk_score 45 (which is
≤ 49, so the claim requires action "Monitor" with priority LOW),
`recommend_action` returns "Add Warning / Reduce Reach" with priority
MEDIUM — the code's thresholds are ≤ 39 / 40–69 / ≥ 70, not the claimed
≤ 49 / 50–74 / ≥ 75. -/
theorem C3_claim_false :
    (Actions.recommend_action r45 {}).action = "Add Warning / Reduce Reach" ∧
    (Actions.recommend_action r45 {}).priority = "MEDIUM" :=
  ⟨rfl, rfl⟩

/-- C3 (amended): the decision policy is the first-match rule table with the
child-safety short-circuit, but with score thresholds ≤ 39 ⟶ Monitor/LOW,
40–69 ⟶ Add Warning / Reduce Reach/MEDIUM, ≥ 70 ⟶ Human Review
Required/HIGH; rationale and remediation steps are the static records per
branch. -/
theorem C3_rule_table (r : Actions.ScoringResult) (s : Signals) :
    Actions.recommend_action r s =
      if r.child_escalation then Actions.escalateBranch
      else if r.risk_score ≤ 39 then Actions.monitorBranch
      else if r.risk_score ≤ 69 then Actions.warnBranch
      else Actions.reviewBranch := rfl

/-! ## Claim C4 -/

/-- C4 counterexample: on the SignalSet with child score 1 and all other
scores 0, the base score of the scoring engine the API server imports
(src/core/scoring.py) is 10 on the 0–100 scale, while the claimed
0.35-child-safety weighting would give 35. -/
theorem C4_claim_false :
    Scoring.base_score sChildOnly * 100 = 10 ∧
    claimedBaseScore sChildOnly = 35 := by
  constructor
  · unfold Scoring.base_score sChildOnly
    norm_num
  · unfold claimedBaseScore weightedSum sChildOnly
    norm_num

/-- C4 (amended): the scoring engine imported by src/api_server.py
(src/core/scoring.py) computes base = 0.40·toxicity + 0.25·emotion +
0.15·call-to-action + 0.10·context + 0.10·child-safety (weights summing
to 1) scaled to 0–100; the claimed 0.35/0.30/0.20/0.10/0.05 weighting
holds only for src/core/signals/improved_scoring.py. -/
theorem C4_engine_weights (s : Signals) :
    Scoring.base_score s * 100 =
      weightedSum
        [(0.40, s.tox_score), (0.25, s.emotion_score), (0.15, s.cta_score),
         (0.10, s.context_score), (0.10, s.child_score)] * 100 ∧
    ((0.40 : ℚ) + 0.25 + 0.15 + 0.10 + 0.10 = 1) ∧
    ImprovedScoring.base_score s * 100 = claimedBaseScore s ∧
    ((0.35 : ℚ) + 0.30 + 0.20 + 0.10 + 0.05 = 1) := by
  refine ⟨?_, by norm_num, ?_, by norm_num⟩
  · unfold Scoring.base_score weightedSum
    simp
    ring
  · unfold ImprovedScoring.base_score claimedBaseScore weightedSum
    simp
    ring

/-! ## Claim C5 -/

/-- C5 counterexample: the malformed SignalSet with toxicity score 2
(outside [0,1]) is not rejected: scoring totally produces a RiskAssessment,
feeding the out-of-range value into the weighted sum
(0.40·2·100 = 80, label "High"); no `InvalidSignal` error exists anywhere
in the codebase. -/
theorem C5_claim_false :
    (Scoring.calculate_harm_score sMal).risk_score = 80 ∧
    (Scoring.calculate_harm_score sMal).risk_label = "High" := by
  have hf : Scoring.riskAfterFloors sMal = 80 := by
    unfold Scoring.riskAfterFloors Scoring.base_score sMal severeCount
      floorIf sevFloor catFloor
    dsimp only
    rw [if_neg (by decide), if_neg (by decide), if_neg (by decide),
      if_neg (by decide), if_neg (by decide), if_neg (by norm_num)]
    norm_num
  have hm : Scoring.riskAfterMults sMal = 80 := by
    unfold Scoring.riskAfterMults multIf
    rw [hf]
    unfold sMal
    dsimp only
    rw [if_neg (by norm_num), if_neg (by norm_num)]
  have hs : Scoring.risk_score sMal = 80 := by
    unfold Scoring.risk_score
    rw [hm]
    norm_num [roundHalfEven]
  unfold Scoring.calculate_harm_score Scoring.calculate_improved_harm_score
  rw [hs]
  exact ⟨rfl, by unfold riskLabel; norm_num⟩

/-- C5 (amended): scoring performs no input validation at all: for any
out-of-range toxicity score t > 1 (other signals at defaults) it produces
a RiskAssessment whose risk_score is min(round(40·t), 100) ≥ 40 — the
malformed value flows into the weighted sum unchecked, neither rejected
with an error nor clamped. -/
theorem C5_no_validation (t : ℚ) (hgt : 1 < t) :
    (Scoring.calculate_harm_score { tox_score := t }).risk_score =
      min (roundHalfEven (40 * t)) 100 ∧
    40 ≤ (Scoring.calculate_harm_score { tox_score := t }).risk_score := by
  have hf : Scoring.riskAfterFloors { tox_score := t } = 40 * t := by
    unfold Scoring.riskAfterFloors Scoring.base_score severeCount
      floorIf sevFloor catFloor
    dsimp only
    rw [if_neg (by decide), if_neg (by decide), if_neg (by decide),
      if_neg (by decide), if_neg (by decide), if_neg (by norm_num)]
    ring
  have hm : Scoring.riskAfterMults { tox_score := t } = 40 * t := by
    unfold Scoring.riskAfterMults multIf
    rw [hf]
    dsimp only
    rw [if_neg (fun hcc => absurd hcc.2 (by norm_num)),
      if_neg (fun hcc => absurd hcc.2 (by norm_num))]
  have hs : (Scoring.calculate_harm_score { tox_score := t }).risk_score =
      min (roundHalfEven (40 * t)) 100 := by
    unfold Scoring.calculate_harm_score Scoring.calculate_improved_harm_score
      Scoring.risk_score
    rw [hm]
  refine ⟨hs, ?_⟩
  rw [hs]
  refine le_min (le_trans ?_ (floor_le_roundHalfEven (40 * t))) (by norm_num)
  refine Int.le_floor.2 ?_
  push_cast
  linarith

/-- C5 witness: the amended theorem applied at the concrete out-of-range
toxicity score 2. -/
theorem C5_no_validation_witness :
    (1 : ℚ) < 2 ∧
    ((Scoring.calculate_harm_score { tox_score := 2 }).risk_score =
        min (roundHalfEven (40 * 2)) 100 ∧
      40 ≤ (Scoring.calculate_harm_score { tox_score := 2 }).risk_score) :=
  ⟨by norm_num, C5_no_validation 2 (by norm_num)⟩

/-! ## Claim C9 -/

/-- C9 counterexample: for src/core/signals/improved_scoring.py, raising
only the child score of `sChild055` from 0.55 to 0.65 (all other inputs
fixed) lowers risk_score from 85 to 80: the raise moves the `elif` chain
from the floor-85 exploitation branch (child_flag with
child_exploitation_matches ≥ 1) to the floor-80 branch (child_flag with
score > 0.6), so the scoring function is not monotone. -/
theorem C9_claim_false :
    sChild055.child_score < sChild065.child_score ∧
    ImprovedScoring.risk_score sChild065 <
      ImprovedScoring.risk_score sChild055 := by
  have h55 : ImprovedScoring.risk_score sChild055 = 85 := by
    have hc : ImprovedScoring.childStage sChild055 = (85, true) := by
      unfold ImprovedScoring.childStage ImprovedScoring.base_score sChild055
      dsimp only
      rw [if_neg (by decide), if_neg (by decide), if_neg (by norm_num),
        if_pos (by decide)]
      norm_num
    have ht : ImprovedScoring.toxStage sChild055 = (85, true) := by
      unfold ImprovedScoring.toxStage
      rw [hc]
      unfold sChild055 severeCount floorIf sevFloor catFloor
      dsimp only
      rw [if_neg (by decide), if_neg (by decide), if_neg (by decide),
        if_neg (by decide), if_neg (by decide)]
    have hm : ImprovedScoring.riskAfterMults sChild055 = 85 := by
      unfold ImprovedScoring.riskAfterMults multIf
      rw [ht]
      unfold sChild055
      dsimp only
      rw [if_neg (by norm_num), if_neg (by norm_num), if_neg (by norm_num)]
    unfold ImprovedScoring.risk_score
    rw [hm]
    norm_num [roundHalfEven]
  have h65 : ImprovedScoring.risk_score sChild065 = 80 := by
    have hc : ImprovedScoring.childStage sChild065 = (80, false) := by
      unfold ImprovedScoring.childStage ImprovedScoring.base_score sChild065
      dsimp only
      rw [if_neg (by decide), if_neg (by decide), if_pos (by norm_num)]
      norm_num
    have ht : ImprovedScoring.toxStage sChild065 = (80, false) := by
      unfold ImprovedScoring.toxStage
      rw [hc]
      unfold sChild065 severeCount floorIf sevFloor catFloor
      dsimp only
      rw [if_neg (by decide), if_neg (by decide), if_neg (by decide),
        if_neg (by decide), if_neg (by decide)]
    have hm : ImprovedScoring.riskAfterMults sChild065 = 80 := by
      unfold ImprovedScoring.riskAfterMults multIf
      rw [ht]
      unfold sChild065
      dsimp only
      rw [if_neg (by norm_num), if_neg (by norm_num), if_neg (by norm_num)]
    unfold ImprovedScoring.risk_score
    rw [hm]
    norm_num [roundHalfEven]
  refine ⟨by norm_num [sChild055, sChild065], ?_⟩
  rw [h55, h65]
  norm_num

/-- C9 (amended): the scoring function the API server imports
(src/core/scoring.py) is monotone: for SignalSets with scores in [0,1]
agreeing on all non-score inputs, raising any of the five signal scores
(here: raising any subset pointwise) never lowers the resulting
risk_score.  The src/core/signals/improved_scoring.py variant violates
this (see the counterexample). -/
theorem C9_scoring_monotone (s t : Signals)
    (hflag : s.child_flag = t.child_flag)
    (hsev : s.toxicity_severity = t.toxicity_severity)
    (hria : s.requires_immediate_action = t.requires_immediate_action)
    (hcat : s.toxicity_categories = t.toxicity_categories)
    (hbs : ScoresIn01 s)
    (he : s.emotion_score ≤ t.emotion_score) (hc : s.cta_score ≤ t.cta_score)
    (hx : s.tox_score ≤ t.tox_score) (hn : s.context_score ≤ t.context_score)
    (hch : s.child_score ≤ t.child_score) :
    Scoring.risk_score s ≤ Scoring.risk_score t := by
  unfold Scoring.risk_score
  exact min_le_min
    (roundHalfEven_mono
      (Scoring.riskAfterMults_mono hflag hsev hria hcat hbs he hc hx hn hch))
    le_rfl

/-- C9 witness: the amended monotonicity theorem applied to the concrete
pair raising the toxicity score from 0.5 to 0.8. -/
theorem C9_scoring_monotone_witness :
    Scoring.risk_score sTox05 ≤ Scoring.risk_score sTox08 :=
  C9_scoring_monotone sTox05 sTox08 rfl rfl rfl rfl
    (by unfold ScoresIn01 sTox05; norm_num)
    (by norm_num [sTox05, sTox08]) (by norm_num [sTox05, sTox08])
    (by norm_num [sTox05, sTox08]) (by norm_num [sTox05, sTox08])
    (by norm_num [sTox05, sTox08])

namespace Db

/-- A row of the `moderation_queue` table (src/core/database.py, the
`CREATE TABLE` statement in `init_database`).  Timestamps are abstract
naturals; nullable columns are `Option`. -/
structure QueueRow where
  id : ℕ
  content_id : String
  queue_name : String
  priority : String
  assigned_to : Option String
  status : String
  created_at : ℕ
  reviewed_at : Option ℕ
  reviewer_decision : Option String
  reviewer_notes : Option String
  deriving Repr, DecidableEq

/-- A row of the `escalations` table. -/
structure EscalationRow where
  id : ℕ
  content_id : String
  escalated_by : String
  escalation_reason : String
  escalation_type : String
  priority : String
  status : String
  assigned_to : Option String
  response_time_estimate : String
  created_at : ℕ
  updated_at : ℕ
  responded_at : Option ℕ
  resolved_at : Option ℕ
  resolution_notes : Option String
  deriving Repr, DecidableEq

/-- The database state the queue claims touch: the `content_analysis`
content ids (that column is UNIQUE, so the id list is what the JOIN in
`get_queue_items` consults), the `moderation_queue` rows, and the next
AUTOINCREMENT id. -/
structure DB where
  content_analysis : List String
  moderation_queue : List QueueRow
  next_queue_id : ℕ
  deriving Repr, DecidableEq

/-- src/core/database.py `add_to_queue`: a plain INSERT — a fresh row with
the next AUTOINCREMENT id, default status 'pending', `created_at` the
current timestamp, every other column NULL.  The table has no uniqueness
constraint on (content_id, queue_name). -/
def add_to_queue (db : DB) (now : ℕ) (content_id queue_name priority : String) :
    DB :=
  { db with
    moderation_queue := db.moderation_queue ++
      [{ id := db.next_queue_id, content_id := content_id,
         queue_name := queue_name, priority := priority, assigned_to := none,
         status := "pending", created_at := now, reviewed_at := none,
         reviewer_decision := none, reviewer_notes := none }]
    next_queue_id := db.next_queue_id + 1 }

/-- SQL `COALESCE(?, column)`: the bound parameter when it is non-NULL,
otherwise the current column value. -/
def coalesce (new old : Option String) : Option String :=
  match new with
  | some v => some v
  | none => old

/-- src/core/database.py `update_queue_status`: an unconditional UPDATE of
the row with the given id — sets status and reviewed_at, and overwrites
assigned_to / reviewer_decision / reviewer_notes through
`COALESCE(?, column)`.  No status precondition, no conflict check. -/
def update_queue_status (db : DB) (now : ℕ) (queue_id : ℕ) (status : String)
    (reviewer decision notes : Option String) : DB :=
  { db with
    moderation_queue := db.moderation_queue.map fun row =>
      if row.id = queue_id then
        { row with
          status := status
          reviewed_at := some now
          assigned_to := coalesce reviewer row.assigned_to
          reviewer_decision := coalesce decision row.reviewer_decision
          reviewer_notes := coalesce notes row.reviewer_notes }
      else row }

/-- The `CASE q.priority` rank of the ORDER BY in `get_queue_items`:
CRITICAL 1, HIGH 2, MEDIUM 3, anything else 4. -/
def priorityRank (p : String) : ℕ :=
  if p = "CRITICAL" then 1 else if p = "HIGH" then 2
  else if p = "MEDIUM" then 3 else 4

/-- The ORDER BY key of `get_queue_items`: priority rank ascending, then
created_at ascending. -/
def queueLe (a b : QueueRow) : Bool :=
  decide (priorityRank a.priority < priorityRank b.priority ∨
    (priorityRank a.priority = priorityRank b.priority ∧
      a.created_at ≤ b.created_at))

/-- The WHERE clause plus the INNER JOIN of `get_queue_items` for a named
queue: `q.queue_name = ? AND q.status = ?`, and the join keeps a queue row
exactly when its content_id exists in content_analysis (content_id is
UNIQUE there). -/
def matchesQueue (db : DB) (queue_name status : String) (r : QueueRow) : Bool :=
  r.queue_name == queue_name && r.status == status &&
    db.content_analysis.contains r.content_id

/-- src/core/database.py `get_queue_items` with a queue name: the matching
rows ordered by (priority rank, created_at) — the ORDER BY is embedded as a
sort by `queueLe`. -/
def get_queue_items (db : DB) (queue_name status : String) : List QueueRow :=
  (db.moderation_queue.filter (matchesQueue db queue_name status)).mergeSort
    queueLe

/-- Python truthiness of an optional string argument (`if assigned_to:`,
`if resolution_notes:`): false for None and for the empty string. -/
def truthyStr (o : Option String) : Bool :=
  match o with
  | some s => !(s == "")
  | none => false

/-- src/core/database.py `update_escalation_status`: always sets status and
updated_at on the row with the given id; sets assigned_to only for a truthy
argument; sets responded_at only when the new status is 'responded' AND
`resolution_notes is None`; sets resolved_at when the new status is
'resolved', persisting resolution_notes only then (and only if truthy). -/
def update_escalation_status (rows : List EscalationRow) (now : ℕ)
    (escalation_id : ℕ) (status : String) (assigned_to : Option String)
    (resolution_notes : Option String) : List EscalationRow :=
  rows.map fun row =>
    if row.id = escalation_id then
      { row with
        status := status
        updated_at := now
        assigned_to :=
          if truthyStr assigned_to then assigned_to else row.assigned_to
        responded_at :=
          if status = "responded" ∧ resolution_notes = none then some now
          else row.responded_at
        resolved_at :=
          if status = "resolved" then some now else row.resolved_at
        resolution_notes :=
          if status = "resolved" ∧ truthyStr resolution_notes then
            resolution_notes
          else row.resolution_notes }
    else row

end Db

namespace Chain

/-! SHA-256 over byte lists, embedding `hashlib.sha256(...).hexdigest()`.
Machine words are naturals reduced mod 2^32. -/

/-- Truncate to a 32-bit word. -/
def w32 (n : ℕ) : ℕ := n % 4294967296

/-- 32-bit right rotation. -/
def rotr (k n : ℕ) : ℕ := w32 ((n >>> k) ||| (n <<< (32 - k)))

def bsig0 (x : ℕ) : ℕ := rotr 2 x ^^^ rotr 13 x ^^^ rotr 22 x

def bsig1 (x : ℕ) : ℕ := rotr 6 x ^^^ rotr 11 x ^^^ rotr 25 x

def ssig0 (x : ℕ) : ℕ := rotr 7 x ^^^ rotr 18 x ^^^ (x >>> 3)

def ssig1 (x : ℕ) : ℕ := rotr 17 x ^^^ rotr 19 x ^^^ (x >>> 10)

/-- Bisection step for the integer cube root: `lo` satisfies `lo³ ≤ n`,
`hi` does not. -/
def cbrtSearch (n : ℕ) : ℕ → ℕ → ℕ → ℕ
  | 0, lo, _ => lo
  | f + 1, lo, hi =>
    if hi ≤ lo + 1 then lo
    else
      let mid := (lo + hi) / 2
      if mid ^ 3 ≤ n then cbrtSearch n f mid hi else cbrtSearch n f lo mid

/-- Integer cube root (largest x with x³ ≤ n; the fuel 200 covers any
bisection of the arguments used here). -/
def icbrt (n : ℕ) : ℕ := cbrtSearch n 200 0 (n + 1)

/-- The first `count` primes below `bound`. -/
def firstPrimes (count bound : ℕ) : List ℕ :=
  ((List.range bound).filter (fun p => Nat.Prime p)).take count

/-- The SHA-256 round constants: the first 32 bits of the fractional parts
of the cube roots of the first 64 primes, i.e. ⌊∛p · 2³²⌋ mod 2³². -/
def K256 : List ℕ :=
  (firstPrimes 64 400).map (fun p => icbrt (p * 2 ^ 96) % 2 ^ 32)

/-- The SHA-256 initial hash state: the first 32 bits of the fractional
parts of the square roots of the first 8 primes, ⌊√p · 2³²⌋ mod 2³². -/
def H256 : List ℕ :=
  (firstPrimes 8 20).map (fun p => Nat.sqrt (p * 2 ^ 64) % 2 ^ 32)

/-- SHA-256 padding: append 0x80, zero-pad to 56 mod 64, then the 64-bit
big-endian bit length. -/
def padBytes (msg : List ℕ) : List ℕ :=
  let L := msg.length
  msg ++ [0x80] ++ List.replicate ((119 - L % 64) % 64) 0 ++
    (List.range 8).map (fun i => ((8 * L) >>> (8 * (7 - i))) % 256)

/-- Big-endian 32-bit words from bytes. -/
def toWords : List ℕ → List ℕ
  | b0 :: b1 :: b2 :: b3 :: rest =>
    ((b0 <<< 24) ||| (b1 <<< 16) ||| (b2 <<< 8) ||| b3) :: toWords rest
  | _ => []

/-- Split a word list into 16-word blocks (fuel-driven). -/
def chunks16 (fuel : ℕ) (ws : List ℕ) : List (List ℕ) :=
  match fuel, ws with
  | 0, _ => []
  | _, [] => []
  | f + 1, ws => ws.take 16 :: chunks16 f (ws.drop 16)

/-- Extend a 16-word block to the 64-word message schedule. -/
def schedule (ws : List ℕ) : List ℕ :=
  (List.range 48).foldl
    (fun acc _ =>
      acc ++ [w32 (ssig1 (acc.getD (acc.length - 2) 0) +
        acc.getD (acc.length - 7) 0 + ssig0 (acc.getD (acc.length - 15) 0) +
        acc.getD (acc.length - 16) 0)])
    ws

/-- One SHA-256 compression round on the 8-word working state. -/
def stepRound (st : List ℕ) (kw : ℕ × ℕ) : List ℕ :=
  match st with
  | [a, b, c, d, e, f, g, hh] =>
    let t1 := w32 (hh + bsig1 e + ((e &&& f) ^^^ ((e ^^^ 0xffffffff) &&& g)) +
      kw.1 + kw.2)
    let t2 := w32 (bsig0 a + ((a &&& b) ^^^ (a &&& c) ^^^ (b &&& c)))
    [w32 (t1 + t2), a, b, c, w32 (d + t1), e, f, g]
  | _ => st

/-- Compress one 16-word block into the hash state. -/
def compressBlock (h : List ℕ) (block : List ℕ) : List ℕ :=
  let out := (K256.zip (schedule block)).foldl stepRound h
  (h.zip out).map (fun p => w32 (p.1 + p.2))

/-- SHA-256 digest of a byte list, as 8 words. -/
def sha256Words (msg : List ℕ) : List ℕ :=
  let ws := toWords (padBytes msg)
  (chunks16 ws.length ws).foldl compressBlock H256

def hexChar (n : ℕ) : Char :=
  if n < 10 then Char.ofNat (48 + n) else Char.ofNat (87 + n)

def wordHex (w : ℕ) : List Char :=
  (List.range 8).map (fun i => hexChar ((w >>> (4 * (7 - i))) % 16))

/-- `hashlib.sha256(msg).hexdigest()`: the digest as 64 lowercase hex
characters. -/
def sha256hex (msg : List ℕ) : String :=
  String.mk ((sha256Words msg).map wordHex).flatten

/-! JSON values and `json.dumps(data, sort_keys=True)`.  Numbers are
integers (the payloads the simulator stores carry integer scores);
`Char.ofNat 34/92/123/125` are the quote, backslash and brace
characters. -/

/-- A JSON value. -/
inductive Jval where
  | null
  | bool (b : Bool)
  | num (n : ℤ)
  | str (s : String)
  | arr (xs : List Jval)
  | obj (kvs : List (String × Jval))

/-- Four uppercase-free hex digits for a `\uXXXX` escape. -/
def uhex (n : ℕ) : List Char :=
  (List.range 4).map (fun i => hexChar ((n >>> (4 * (3 - i))) % 16))

/-- Python's json string escaping with `ensure_ascii=True`: the short
escapes, `\uXXXX` for other control or non-ASCII characters (surrogate
pairs above U+FFFF), everything in space..tilde verbatim. -/
def escChar (c : Char) : List Char :=
  if c = Char.ofNat 34 then [Char.ofNat 92, Char.ofNat 34]
  else if c = Char.ofNat 92 then [Char.ofNat 92, Char.ofNat 92]
  else if c.toNat = 10 then [Char.ofNat 92, 'n']
  else if c.toNat = 9 then [Char.ofNat 92, 't']
  else if c.toNat = 13 then [Char.ofNat 92, 'r']
  else if c.toNat = 8 then [Char.ofNat 92, 'b']
  else if c.toNat = 12 then [Char.ofNat 92, 'f']
  else if c.toNat < 0x20 ∨ 0x7e < c.toNat then
    if c.toNat < 0x10000 then Char.ofNat 92 :: 'u' :: uhex c.toNat
    else
      (Char.ofNat 92 :: 'u' :: uhex (0xd800 + (c.toNat - 0x10000) / 0x400)) ++
        (Char.ofNat 92 :: 'u' :: uhex (0xdc00 + (c.toNat - 0x10000) % 0x400))
  else [c]

def escString (s : String) : List Char := (s.data.map escChar).flatten

/-- Insert a key/value pair into a key-sorted association list. -/
def insertKV (p : String × Jval) :
    List (String × Jval) → List (String × Jval)
  | [] => [p]
  | q :: rest => if p.1 < q.1 then p :: q :: rest else q :: insertKV p rest

/-- Sort an association list by key (Python's `sort_keys=True` order:
code-point ascending). -/
def sortKVs (kvs : List (String × Jval)) : List (String × Jval) :=
  kvs.foldr insertKV []

/-- Recursively sort every object's keys, the effect of
`sort_keys=True` on the whole document. -/
def sortDeep : Jval → Jval
  | .null => .null
  | .bool b => .bool b
  | .num n => .num n
  | .str s => .str s
  | .arr xs => .arr (xs.attach.map fun x => sortDeep x.1)
  | .obj kvs =>
    .obj (sortKVs (kvs.attach.map fun kv => (kv.1.1, sortDeep kv.1.2)))
decreasing_by
  · have h := List.sizeOf_lt_of_mem x.2
    simp_wf
    omega
  · have h := List.sizeOf_lt_of_mem kv.2
    obtain ⟨⟨k, v⟩, hkv⟩ := kv
    simp_wf
    simp at h
    omega

mutual

/-- Serialize a (key-sorted) JSON value with Python's default separators
`", "` and `": "`. -/
def dumpAux : Jval → List Char
  | .null => "null".data
  | .bool true => "true".data
  | .bool false => "false".data
  | .num n => (toString n).data
  | .str s => Char.ofNat 34 :: (escString s ++ [Char.ofNat 34])
  | .arr xs => '[' :: (dumpList xs ++ [']'])
  | .obj kvs => Char.ofNat 123 :: (dumpObj kvs ++ [Char.ofNat 125])

/-- Serialize array elements, separated by `", "`. -/
def dumpList : List Jval → List Char
  | [] => []
  | [x] => dumpAux x
  | x :: y :: rest => dumpAux x ++ ',' :: ' ' :: dumpList (y :: rest)

/-- Serialize object entries, `key": "value` separated by `", "`. -/
def dumpObj : List (String × Jval) → List Char
  | [] => []
  | [(k, v)] => dumpAux (.str k) ++ ':' :: ' ' :: dumpAux v
  | (k, v) :: q :: rest =>
    dumpAux (.str k) ++ ':' :: ' ' :: dumpAux v ++ ',' :: ' ' ::
      dumpObj (q :: rest)

end

/-- `json.dumps(j, sort_keys=True)`. -/
def dumps (j : Jval) : String := String.mk (dumpAux (sortDeep j))

/-- UTF-8 encoding of one code point. -/
def utf8Char (c : Char) : List ℕ :=
  let n := c.toNat
  if n < 0x80 then [n]
  else if n < 0x800 then [0xc0 + n / 0x40, 0x80 + n % 0x40]
  else if n < 0x10000 then
    [0xe0 + n / 0x1000, 0x80 + (n / 0x40) % 0x40, 0x80 + n % 0x40]
  else
    [0xf0 + n / 0x40000, 0x80 + (n / 0x1000) % 0x40,
     0x80 + (n / 0x40) % 0x40, 0x80 + n % 0x40]

/-- `str.encode()`: UTF-8 bytes of a string. -/
def strBytes (s : String) : List ℕ := (s.data.map utf8Char).flatten

/-- src/core/blockchain.py `hash_data` (both classes share the same body):
`hashlib.sha256(json.dumps(data, sort_keys=True).encode()).hexdigest()`. -/
def hash_data (d : Jval) : String := sha256hex (strBytes (dumps d))

/-! The `LocalBlockchainSimulator` chain. -/

/-- One block of the simulator's `audit_chain.json`, field for field. -/
structure SimBlock where
  block_number : ℕ
  timestamp : String
  content_id : String
  data : Jval
  previous_hash : String
  hash : String

/-- The genesis previous hash `"0" * 64`. -/
def zeros64 : String := String.mk (List.replicate 64 '0')

/-- The block dict as it exists when `block["hash"]` is computed: the five
fields preceding the hash (the hash key is added only afterwards). -/
def blockPreJson (block_number : ℕ) (timestamp content_id : String)
    (data : Jval) (previous_hash : String) : Jval :=
  .obj [("block_number", .num block_number), ("timestamp", .str timestamp),
        ("content_id", .str content_id), ("data", data),
        ("previous_hash", .str previous_hash)]

/-- src/core/blockchain.py `LocalBlockchainSimulator.log_analysis`:
build a block with `block_number = len(blocks)`, the current timestamp,
the data payload `{content_text, analysis}`, `previous_hash` the last
block's hash (or the all-zero genesis value), hash the five fields, and
append. -/
def log_analysis (chain : List SimBlock) (now content_id : String)
    (analysis : Jval) (content_text : String) : List SimBlock :=
  let data : Jval := .obj [("content_text", .str content_text),
                           ("analysis", analysis)]
  let previous_hash := match chain.getLast? with
    | some b => b.hash
    | none => zeros64
  chain ++ [{ block_number := chain.length, timestamp := now,
              content_id := content_id, data := data,
              previous_hash := previous_hash,
              hash := hash_data (blockPreJson chain.length now content_id
                data previous_hash) }]

/-- The chain-linkage invariant of claim C2: every block's sequence number
is its position, its previous_hash is the preceding block's hash (the
all-zero genesis value at position 0), and its hash is the SHA-256 digest
of the canonical key-ordered serialization of its preceding fields. -/
def chainValid (chain : List SimBlock) : Prop :=
  ∀ i (h : i < chain.length),
    (chain.get ⟨i, h⟩).block_number = i ∧
    (chain.get ⟨i, h⟩).previous_hash =
      (if hz : i = 0 then zeros64
       else (chain.get ⟨i - 1, by omega⟩).hash) ∧
    (chain.get ⟨i, h⟩).hash =
      hash_data (blockPreJson i (chain.get ⟨i, h⟩).timestamp
        (chain.get ⟨i, h⟩).content_id (chain.get ⟨i, h⟩).data
        (chain.get ⟨i, h⟩).previous_hash)

/-- One `log_analysis` call's arguments. -/
structure AppendOp where
  timestamp : String
  content_id : String
  analysis : Jval
  content_text : String

/-- Run a finite sequence of appends against the empty chain. -/
def runAppends (ops : List AppendOp) : List SimBlock :=
  ops.foldl
    (fun ch op => log_analysis ch op.timestamp op.content_id op.analysis
      op.content_text)
    []

/-- The record `BlockchainAuditManager.get_audit_record` returns — the
outputs of the contract's `getAuditRecord` ABI entry.  Note it does not
even include the `dataHash` stored by `logAnalysis`, so
`verify_audit_integrity` has nothing to compare a recomputed digest
against. -/
structure AuditRecord where
  ipfs_hash : String
  risk_score : ℤ
  action : String
  timestamp : ℤ
  auditor : String
  deriving Repr, DecidableEq

/-- Python truthiness of a decoded JSON value (`if not ipfs_data`). -/
def jTruthy : Jval → Bool
  | .null => false
  | .bool b => b
  | .num n => n != 0
  | .str s => !(s == "")
  | .arr xs => !xs.isEmpty
  | .obj kvs => !kvs.isEmpty

/-- src/core/blockchain.py `BlockchainAuditManager.verify_audit_integrity`,
parametrized by its two external lookups (the on-chain record read and the
IPFS fetch).  Faithful to the source: it computes the digest of the
retrieved data (`_computed_hash`) but never compares it to anything — the
source's own comment reads "In production, you'd compare with stored hash
from blockchain" — and it checks no previous_hash linkage; it returns True
whenever both lookups produce (truthy) data. -/
def verify_audit_integrity (getRecord : String → Option AuditRecord)
    (retrieveIpfs : String → Option Jval) (content_id : String) : Bool :=
  match getRecord content_id with
  | none => false
  | some record =>
    match retrieveIpfs record.ipfs_hash with
    | none => false
    | some ipfs_data =>
      if jTruthy ipfs_data then
        let _computed_hash := hash_data ipfs_data
        true
      else false

/-- The blockchain object held by `ActionExecutor`: a configured
`BlockchainAuditManager`, the `LocalBlockchainSimulator` fallback, or
None (`use_blockchain=False`). -/
inductive Backend where
  | manager (getRecord : String → Option AuditRecord)
      (retrieveIpfs : String → Option Jval)
  | simulator (chain : List SimBlock)
  | disabled

/-- src/core/action_executor.py `ActionExecutor.verify_audit_integrity`:
delegates iff the backend has a `verify_audit_integrity` attribute — only
`BlockchainAuditManager` does; `LocalBlockchainSimulator` has none — and
returns False otherwise. -/
def executor_verify_audit_integrity : Backend → String → Bool
  | .manager g r, content_id => verify_audit_integrity g r content_id
  | .simulator _, _ => false
  | .disabled, _ => false

end Chain

/-! ## Concrete database states for counterexamples and witnesses -/

/-- A database with one analyzed content id and an empty queue. -/
def dbStart : Db.DB :=
  { content_analysis := ["c1"], moderation_queue := [], next_queue_id := 1 }

/-- A pending queue entry for content "c1". -/
def rowPending : Db.QueueRow :=
  { id := 1, content_id := "c1", queue_name := "Priority Review Queue",
    priority := "HIGH", assigned_to := none, status := "pending",
    created_at := 0, reviewed_at := none, reviewer_decision := none,
    reviewer_notes := none }

/-- A database holding exactly the pending entry `rowPending`. -/
def dbOneRow : Db.DB :=
  { content_analysis := ["c1"], moderation_queue := [rowPending],
    next_queue_id := 2 }

/-- `rowPending` after the two conflicting reviews of the C7 scenario. -/
def rowReviewed : Db.QueueRow :=
  { id := 1, content_id := "c1", queue_name := "Priority Review Queue",
    priority := "HIGH", assigned_to := some "bob", status := "reviewed",
    created_at := 0, reviewed_at := some 20,
    reviewer_decision := some "approve", reviewer_notes := none }

/-- A pending escalation row. -/
def escRow : Db.EscalationRow :=
  { id := 1, content_id := "c1", escalated_by := "mod1",
    escalation_reason := "urgent", escalation_type := "child_safety",
    priority := "CRITICAL", status := "pending", assigned_to := none,
    response_time_estimate := "< 1 hour", created_at := 0, updated_at := 0,
    responded_at := none, resolved_at := none, resolution_notes := none }

/-- `escRow` after `update_escalation_status` with status 'responded' and
non-null resolution_notes: status and updated_at change, nothing else. -/
def escRowUpdated : Db.EscalationRow :=
  { escRow with status := "responded", updated_at := 100 }

/-! ## Claim C6 -/

/-- C6 counterexample: enqueuing content "c1" twice into the same queue
leaves two rows for that (content_id, queue) — with distinct ids 1 and 2 —
so the second call neither returns the existing entry identity nor avoids
a duplicate row; no conflict is reported. -/
theorem C6_claim_false :
    ((Db.add_to_queue
        (Db.add_to_queue dbStart 0 "c1" "Priority Review Queue" "HIGH")
        1 "c1" "Priority Review Queue" "HIGH").moderation_queue.filter
      (fun r =>
        r.content_id == "c1" && r.queue_name == "Priority Review Queue")).length
        = 2 ∧
    ((Db.add_to_queue
        (Db.add_to_queue dbStart 0 "c1" "Priority Review Queue" "HIGH")
        1 "c1" "Priority Review Queue" "HIGH").moderation_queue.map (·.id))
        = [1, 2] := by
  decide

/-- C6 (amended): `add_to_queue` is not idempotent — every call inserts a
fresh row (the schema has no uniqueness constraint on content_id/queue), so
two enqueues of the same content into the same queue add two rows for that
(content_id, queue) pair and grow the queue by exactly two rows. -/
theorem C6_enqueue_inserts_duplicate (db : Db.DB) (now1 now2 : ℕ)
    (cid qn pr : String) :
    ((Db.add_to_queue (Db.add_to_queue db now1 cid qn pr) now2 cid qn
        pr).moderation_queue.filter
      (fun r => r.content_id == cid && r.queue_name == qn)).length =
      (db.moderation_queue.filter
        (fun r => r.content_id == cid && r.queue_name == qn)).length + 2 ∧
    (Db.add_to_queue (Db.add_to_queue db now1 cid qn pr) now2 cid qn
        pr).moderation_queue.length = db.moderation_queue.length + 2 := by
  constructor
  · simp [Db.add_to_queue, List.filter_append]
  · simp [Db.add_to_queue]

/-! ## Claim C7 -/

/-- C7 counterexample: after a first review (alice, remove) of the pending
entry, a second review with a different reviewer and decision (bob,
approve) does not fail and does not leave the stored decision unchanged —
it silently overwrites: the stored row ends with decision "approve",
reviewer "bob", reviewed_at from the second call.  No ConflictError exists
in the codebase. -/
theorem C7_claim_false :
    ((Db.update_queue_status
        (Db.update_queue_status dbOneRow 10 1 "reviewed" (some "alice")
          (some "remove") none)
        20 1 "reviewed" (some "bob") (some "approve") none).moderation_queue.map
      fun r => (r.reviewer_decision, r.assigned_to, r.status, r.reviewed_at)) =
      [(some "approve", some "bob", "reviewed", some 20)] := by
  decide

/-- C7 (amended): `update_queue_status` performs no conflict detection:
it unconditionally sets status and reviewed_at and overwrites the recorded
reviewer/decision/notes through `COALESCE(?, column)`, so of two
successive reviews of the same entry the last write wins — every row with
the reviewed id ends with the second call's status, timestamp and
decision. -/
theorem C7_last_write_wins (db : Db.DB) (qid t1 t2 : ℕ)
    (r1 r2 d1 n1 n2 : Option String) (d2v : String) :
    ∀ row ∈ (Db.update_queue_status
        (Db.update_queue_status db t1 qid "reviewed" r1 d1 n1)
        t2 qid "reviewed" r2 (some d2v) n2).moderation_queue,
      row.id = qid →
        row.status = "reviewed" ∧ row.reviewed_at = some t2 ∧
          row.reviewer_decision = some d2v := by
  intro row hmem hid
  simp only [Db.update_queue_status, List.map_map, List.mem_map] at hmem
  obtain ⟨orig, horig, rfl⟩ := hmem
  by_cases h : orig.id = qid
  · simp only [Function.comp, if_pos h]
    simp [Db.coalesce, if_pos h]
  · exfalso
    apply h
    simpa [Function.comp, if_neg h] using hid

/-- C7 witness: the last-write-wins theorem applied to the concrete
two-review scenario on `dbOneRow`. -/
theorem C7_last_write_wins_witness :
    rowReviewed.status = "reviewed" ∧ rowReviewed.reviewed_at = some 20 ∧
      rowReviewed.reviewer_decision = some "approve" :=
  C7_last_write_wins dbOneRow 1 10 20 (some "alice") (some "bob")
    (some "remove") none none "approve" rowReviewed (by decide) rfl

/-! ## Claim C8 -/

theorem queueLe_trans (a b c : Db.QueueRow) :
    Db.queueLe a b → Db.queueLe b c → Db.queueLe a c := by
  simp only [Db.queueLe, decide_eq_true_eq]
  omega

theorem queueLe_total (a b : Db.QueueRow) :
    Db.queueLe a b || Db.queueLe b a := by
  simp only [Db.queueLe, Bool.or_eq_true, decide_eq_true_eq]
  omega

/-- C8 (confirmed): for any database state, queue name and status filter,
`get_queue_items` returns exactly the matching rows (a permutation of the
filtered table) sorted by priority rank ascending (CRITICAL=1, HIGH=2,
MEDIUM=3, LOW/other=4) and, within equal rank, by creation time
ascending. -/
theorem C8_queue_ordering (db : Db.DB) (qn st : String) :
    (Db.get_queue_items db qn st).Perm
      (db.moderation_queue.filter (Db.matchesQueue db qn st)) ∧
    (Db.get_queue_items db qn st).Pairwise
      (fun a b => Db.priorityRank a.priority < Db.priorityRank b.priority ∨
        (Db.priorityRank a.priority = Db.priorityRank b.priority ∧
          a.created_at ≤ b.created_at)) := by
  constructor
  · exact List.mergeSort_perm _ _
  · have h := List.sorted_mergeSort
      (fun a b c => queueLe_trans a b c)
      (fun a b => queueLe_total a b)
      (db.moderation_queue.filter (Db.matchesQueue db qn st))
    refine h.imp ?_
    intro a b hab
    simpa [Db.queueLe, decide_eq_true_eq] using hab

/-! ## Claim C10 -/

/-- C10 (confirmed): `update_escalation_status` leaves every row's
responded_at unchanged whenever the call is not (status 'responded' with
resolution_notes None) — in particular for every call with status
'responded' and non-null resolution_notes — even though it does set status
and updated_at on the targeted row; and it leaves every row's
resolution_notes unchanged whenever the new status is not 'resolved'. -/
theorem C10_responded_at_only_without_notes (rows : List Db.EscalationRow)
    (now eid : ℕ) (st : String) (asg notes : Option String) :
    (¬(st = "responded" ∧ notes = none) →
      (Db.update_escalation_status rows now eid st asg notes).map
          (·.responded_at) = rows.map (·.responded_at)) ∧
    (st ≠ "resolved" →
      (Db.update_escalation_status rows now eid st asg notes).map
          (·.resolution_notes) = rows.map (·.resolution_notes)) ∧
    (∀ r ∈ Db.update_escalation_status rows now eid st asg notes,
      r.id = eid → r.status = st ∧ r.updated_at = now) := by
  refine ⟨?_, ?_, ?_⟩
  · intro hno
    unfold Db.update_escalation_status
    rw [List.map_map]
    apply List.map_congr_left
    intro row _
    by_cases h : row.id = eid
    · simp [Function.comp, if_pos h, if_neg hno]
    · simp [Function.comp, if_neg h]
  · intro hnr
    unfold Db.update_escalation_status
    rw [List.map_map]
    apply List.map_congr_left
    intro row _
    by_cases h : row.id = eid
    · simp [Function.comp, if_pos h]
      intro h1
      exact absurd h1 hnr
    · simp [Function.comp, if_neg h]
  · intro r hmem hid
    unfold Db.update_escalation_status at hmem
    rw [List.mem_map] at hmem
    obtain ⟨orig, _, rfl⟩ := hmem
    by_cases h : orig.id = eid
    · simp [if_pos h]
    · exfalso
      apply h
      simpa [if_neg h] using hid

/-- C10 witness: the theorem applied to a concrete call with status
'responded' and resolution_notes "n" on the pending escalation `escRow`:
responded_at and resolution_notes stay untouched while status and
updated_at change. -/
theorem C10_responded_at_witness :
    ((Db.update_escalation_status [escRow] 100 1 "responded" none
        (some "n")).map (·.responded_at) = [escRow].map (·.responded_at)) ∧
    ((Db.update_escalation_status [escRow] 100 1 "responded" none
        (some "n")).map (·.resolution_notes) =
      [escRow].map (·.resolution_notes)) ∧
    (escRowUpdated.status = "responded" ∧ escRowUpdated.updated_at = 100) :=
  ⟨(C10_responded_at_only_without_notes [escRow] 100 1 "responded" none
      (some "n")).1 (by decide),
   (C10_responded_at_only_without_notes [escRow] 100 1 "responded" none
      (some "n")).2.1 (by decide),
   (C10_responded_at_only_without_notes [escRow] 100 1 "responded" none
      (some "n")).2.2 escRowUpdated (by decide) rfl⟩

/-! ## Claim C2 -/

theorem chainValid_nil : Chain.chainValid [] := by
  intro i h
  simp at h

theorem log_analysis_preserves_chainValid (ch : List Chain.SimBlock)
    (hv : Chain.chainValid ch) (now cid : String) (analysis : Chain.Jval)
    (text : String) :
    Chain.chainValid (Chain.log_analysis ch now cid analysis text) := by
  intro i h
  have hlen : (Chain.log_analysis ch now cid analysis text).length =
      ch.length + 1 := by
    simp [Chain.log_analysis]
  rw [hlen] at h
  by_cases hi : i < ch.length
  · have hget : ∀ j (hj : j < ch.length),
        (Chain.log_analysis ch now cid analysis text).get
            ⟨j, by rw [hlen]; omega⟩ = ch.get ⟨j, hj⟩ := by
      intro j hj
      simp only [Chain.log_analysis, List.get_eq_getElem]
      exact List.getElem_append_left hj
    obtain ⟨h1, h2, h3⟩ := hv i hi
    refine ⟨?_, ?_, ?_⟩
    · rw [hget i hi]
      exact h1
    · rw [hget i hi]
      by_cases hz : i = 0
      · rw [dif_pos hz] at h2 ⊢
        exact h2
      · rw [dif_neg hz] at h2 ⊢
        rw [hget (i - 1) (by omega)]
        exact h2
    · rw [hget i hi]
      exact h3
  · have hieq : i = ch.length := by omega
    subst hieq
    have hgetb : (Chain.log_analysis ch now cid analysis text).get
        ⟨ch.length, by omega⟩ =
        { block_number := ch.length, timestamp := now, content_id := cid,
          data := .obj [("content_text", .str text), ("analysis", analysis)],
          previous_hash := match ch.getLast? with
            | some b => b.hash
            | none => Chain.zeros64,
          hash := Chain.hash_data (Chain.blockPreJson ch.length now cid
            (.obj [("content_text", .str text), ("analysis", analysis)])
            (match ch.getLast? with
              | some b => b.hash
              | none => Chain.zeros64)) } := by
      simp only [Chain.log_analysis, List.get_eq_getElem]
      exact List.getElem_concat_length ch _ _ rfl _
    rw [hgetb]
    refine ⟨rfl, ?_, rfl⟩
    by_cases hz : ch.length = 0
    · rw [dif_pos hz]
      have hnil : ch = [] := List.length_eq_zero.1 hz
      subst hnil
      rfl
    · rw [dif_neg hz]
      have hlast : ch.getLast? =
          some (ch.get ⟨ch.length - 1, by omega⟩) := by
        rw [List.getLast?_eq_getElem?]
        rw [List.getElem?_eq_getElem (by omega)]
        simp
      rw [hlast]
      have hprev : (Chain.log_analysis ch now cid analysis text).get
          ⟨ch.length - 1, by rw [hlen]; omega⟩ =
          ch.get ⟨ch.length - 1, by omega⟩ := by
        simp only [Chain.log_analysis, List.get_eq_getElem]
        exact List.getElem_append_left (by omega)
      rw [hprev]

/-- C2 (confirmed): after every finite sequence of `log_analysis` appends
starting from the empty chain, every block's block_number is its position
(the count of previously appended blocks), its previous_hash is the hash of
the immediately preceding block (the all-zero genesis value at position 0),
and its hash is the SHA-256 digest of the canonical key-ordered JSON
serialization of its preceding fields (block_number, timestamp, content_id,
data payload, previous_hash). -/
theorem C2_chain_invariant (ops : List Chain.AppendOp) :
    Chain.chainValid (Chain.runAppends ops) := by
  unfold Chain.runAppends
  have hgen : ∀ ch : List Chain.SimBlock, Chain.chainValid ch →
      Chain.chainValid (ops.foldl
        (fun ch op => Chain.log_analysis ch op.timestamp op.content_id
          op.analysis op.content_text) ch) := by
    induction ops with
    | nil => exact fun ch hv => hv
    | cons op rest ih =>
      intro ch hv
      exact ih _ (log_analysis_preserves_chainValid ch hv op.timestamp
        op.content_id op.analysis op.content_text)
  exact hgen [] chainValid_nil

/-! ## Claim C1 -/

/-- A payload as it might sit on IPFS after tampering: the content of the
audit record was modified after logging, so its digest no longer matches
the `dataHash` recorded on chain — `verify_audit_integrity` does not
notice. -/
def tamperedAudit : Chain.Jval :=
  .obj [("content_id", .str "c1"), ("content_text", .str "tampered text"),
        ("risk_score", .num 5)]

/-- The on-chain record for content "c1". -/
def recC1 : Chain.AuditRecord :=
  { ipfs_hash := "QmSample", risk_score := 80,
    action := "Human Review Required", timestamp := 0, auditor := "0xAuditor" }

/-- A contract-read function serving `recC1` for content "c1". -/
def getRecordC1 : String → Option Chain.AuditRecord :=
  fun cid => if cid = "c1" then some recC1 else none

/-- An IPFS fetch serving the tampered payload under `recC1`'s CID. -/
def retrieveIpfsC1 : String → Option Chain.Jval :=
  fun h => if h = "QmSample" then some tamperedAudit else none

/-- C1 (code bug): `verify_audit_integrity` performs no integrity check at
all.  Through the `ActionExecutor` path with a configured
`BlockchainAuditManager`, it returns True for every content id whose
record and (truthy) IPFS data are merely retrievable — the hypotheses say
nothing about any hash matching, so it returns True on arbitrarily
tampered data, and it inspects no previous_hash link.  With the
`LocalBlockchainSimulator` fallback backend it is constantly False (the
simulator has no verify method).  Both contradict the claimed
recompute-and-compare semantics and its tamper-detection property. -/
theorem C1_verify_checks_nothing
    (g : String → Option Chain.AuditRecord)
    (r : String → Option Chain.Jval) (cid : String)
    (record : Chain.AuditRecord) (d : Chain.Jval)
    (hg : g cid = some record) (hr : r record.ipfs_hash = some d)
    (ht : Chain.jTruthy d = true) :
    Chain.executor_verify_audit_integrity (.manager g r) cid = true ∧
    ∀ (chain : List Chain.SimBlock) (cid2 : String),
      Chain.executor_verify_audit_integrity (.simulator chain) cid2 = false := by
  refine ⟨?_, fun chain cid2 => rfl⟩
  unfold Chain.executor_verify_audit_integrity Chain.verify_audit_integrity
  dsimp only
  rw [hg]
  dsimp only
  rw [hr]
  dsimp only
  rw [if_pos ht]

/-- C1 witness: the theorem applied to the concrete store in which the
IPFS payload for content "c1" was tampered with after logging: verify
still reports True. -/
theorem C1_verify_checks_nothing_witness :
    Chain.executor_verify_audit_integrity
      (.manager getRecordC1 retrieveIpfsC1) "c1" = true :=
  (C1_verify_checks_nothing getRecordC1 retrieveIpfsC1 "c1" recC1
    tamperedAudit (by decide) rfl rfl).1

end HarmLens
